import Mathlib

/-
  Verification of the InsightGUIDE web client (frontend-web-ui) against its
  natural-language specification.

  The definitions below are a shallow embedding of the TypeScript source:
    - hooks/useApiState.ts   (submitPdf and the PDF view state of usePdfState)
    - hooks/useDragDrop.ts   (handleDrop and the upload/form state of useUploadState)
    - hooks/usePreloadState.ts (loadPreloadedPaper)
    - middleware.ts          (basic-auth middleware)
    - components/InsightsViewer.tsx (which controls are rendered)
    - app/page.tsx           (form submission wiring and the uploadedFile effect)

  JavaScript numbers are modelled as exact rationals (ℚ) or integers (ℤ);
  browser / Node externals (fetch, FileReader, base64 decoding, URL parsing)
  are modelled as explicit parameters or as abstract result values fed into
  the embedded handlers.
-/

namespace InsightGUIDE

/-- Does the character list start with the given pattern list? -/
def leadsWith : List Char → List Char → Bool
  | _, [] => true
  | [], _ :: _ => false
  | c :: cs, d :: ds => c == d && leadsWith cs ds

/-- Does the character list contain the pattern list as a contiguous run? -/
def hasSub (pat : List Char) : List Char → Bool
  | [] => pat.isEmpty
  | c :: rest => leadsWith (c :: rest) pat || hasSub pat rest

/-- JavaScript `s.includes(pat)` substring test. -/
def jsIncludes (s pat : String) : Bool :=
  hasSub pat.data s.data

/-- JavaScript `s.startsWith(pat)`. -/
def jsStartsWith (s pat : String) : Bool :=
  leadsWith s.data pat.data

/-- JavaScript `s.endsWith(pat)`. -/
def jsEndsWith (s pat : String) : Bool :=
  leadsWith s.data.reverse pat.data.reverse

/-- JavaScript `s.toLowerCase()` (ASCII, as used by the error matching). -/
def jsToLower (s : String) : String :=
  String.mk (s.data.map Char.toLower)

/-- JavaScript `s.trim()`. -/
def jsTrim (s : String) : String :=
  String.mk (((s.data.dropWhile Char.isWhitespace).reverse.dropWhile Char.isWhitespace).reverse)

/-- JavaScript `s.substring(n)`. -/
def jsDrop (s : String) (n : Nat) : String :=
  String.mk (s.data.drop n)

/-- JavaScript `s.substring(0, n)`. -/
def jsTake (s : String) (n : Nat) : String :=
  String.mk (s.data.take n)

/-- JavaScript `s.split(sep)` for a single-character separator, on lists. -/
def splitOnChar (sep : Char) : List Char → List (List Char)
  | [] => [[]]
  | c :: rest =>
      match splitOnChar sep rest with
      | [] => if c == sep then [[], [c]] else [[c]]
      | h :: t => if c == sep then [] :: h :: t else (c :: h) :: t

/-- JavaScript `s.split(sep)` for a single-character separator. -/
def jsSplitChar (s : String) (sep : Char) : List String :=
  (splitOnChar sep s.data).map String.mk

/-- Minimal JSON value model for bodies parsed by `response.json()`. -/
inductive Json where
  | null : Json
  | bool (b : Bool) : Json
  | num (n : Int) : Json
  | str (s : String) : Json
  | arr (xs : List Json) : Json
  | obj (fields : List (String × Json)) : Json
  deriving Repr

/-- Property access `j.k` on a parsed JSON value: a field of an object,
`undefined` (here `none`) otherwise. -/
def Json.getField : Json → String → Option Json
  | .obj fields, k => (fields.find? (fun p => p.1 == k)).map (fun p => p.2)
  | _, _ => none

/-- JavaScript truthiness of a JSON value. -/
def Json.truthy : Json → Bool
  | .null => false
  | .bool b => b
  | .num n => n != 0
  | .str s => !s.isEmpty
  | .arr _ => true
  | .obj _ => true

/-- JavaScript string conversion used when a non-string lands in an
`Error` message (only the `.str` case is exercised by honest backends). -/
def Json.asJsString : Json → String
  | .null => "null"
  | .bool b => if b then "true" else "false"
  | .num n => toString n
  | .str s => s
  | .arr _ => "[object Array]"
  | .obj _ => "[object Object]"

/-- A file as the client sees it: `name`, MIME `type`, and content bytes
(`size` is the byte count). -/
structure FileData where
  name : String
  type : String
  content : List Nat
  deriving Repr, DecidableEq

/-- JavaScript `file.size`. -/
def FileData.size (f : FileData) : Nat := f.content.length

end InsightGUIDE

namespace InsightGUIDE

/-! ### PDF view state (`usePdfState` in useApiState.ts) -/

/-- `MIN_ZOOM` from useApiState.ts. -/
def MIN_ZOOM : ℚ := 1/10

/-- `MAX_ZOOM` from useApiState.ts. -/
def MAX_ZOOM : ℚ := 2

/-- `ZOOM_STEP` from useApiState.ts. -/
def ZOOM_STEP : ℚ := 1/10

/-- The `PdfState` record of usePdfState (`pdfDisplayWidth: undefined` is
`none`; `numPages: null` is `none`). -/
structure PdfState where
  pdfUrl : Option String
  numPages : Option Int
  currentPage : Int
  fileName : Option String
  pdfDisplayWidth : Option Int
  pdfZoom : ℚ
  scrollPosition : ℚ
  resetKey : Int
  deriving Repr, DecidableEq

/-- The initial / cleared `PdfState` (`clearPdfState`). -/
def clearPdfState : PdfState :=
  { pdfUrl := none
    numPages := none
    currentPage := 1
    fileName := none
    pdfDisplayWidth := none
    pdfZoom := 1
    scrollPosition := 0
    resetKey := 0 }

/-- `handleZoomIn`: `Math.min(pdfZoom + ZOOM_STEP, MAX_ZOOM)`. -/
def handleZoomIn (z : ℚ) : ℚ := min (z + ZOOM_STEP) MAX_ZOOM

/-- `handleZoomOut`: `Math.max(pdfZoom - ZOOM_STEP, MIN_ZOOM)`. -/
def handleZoomOut (z : ℚ) : ℚ := max (z - ZOOM_STEP) MIN_ZOOM

/-- `handleSetZoom`: `Math.max(MIN_ZOOM, Math.min(MAX_ZOOM, zoom))`. -/
def handleSetZoom (v : ℚ) : ℚ := max MIN_ZOOM (min MAX_ZOOM v)

/-- `saveScrollPosition`: if the scroll area element exists (its current
`scrollTop` is `some t`), store it in `scrollPosition`; otherwise no-op. -/
def saveScrollPosition (scrollTop : Option ℚ) (s : PdfState) : PdfState :=
  match scrollTop with
  | some t => { s with scrollPosition := t }
  | none => s

/-- JavaScript `numPages || 1` (`null` and `0` are falsy). -/
def numPagesOr1 : Option Int → Int
  | some n => if n == 0 then 1 else n
  | none => 1

/-- `goToPrevPage`: save the scroll position, then set
`currentPage := Math.max(currentPage - 1, 1)` (the deferred
`restoreScrollPosition` touches only the DOM, not this state). -/
def goToPrevPage (scrollTop : Option ℚ) (s : PdfState) : PdfState :=
  let s1 := saveScrollPosition scrollTop s
  { s1 with currentPage := max (s1.currentPage - 1) 1 }

/-- `goToNextPage`: save the scroll position, then set
`currentPage := Math.min(currentPage + 1, numPages || 1)`. -/
def goToNextPage (scrollTop : Option ℚ) (s : PdfState) : PdfState :=
  let s1 := saveScrollPosition scrollTop s
  { s1 with currentPage := min (s1.currentPage + 1) (numPagesOr1 s1.numPages) }

/-- `onDocumentLoadSuccess`: reset to page 1 when `numPages` was `null`,
otherwise keep the current page clamped by the new page count. -/
def onDocumentLoadSuccess (numPages : Int) (s : PdfState) : PdfState :=
  let shouldResetPage := s.numPages.isNone
  let newCurrentPage := if shouldResetPage then 1 else min s.currentPage numPages
  { s with numPages := some numPages, currentPage := newCurrentPage }

end InsightGUIDE

namespace InsightGUIDE

/-! ### submitPdf (useApiState.ts) -/

/-- JavaScript `ct && ct.includes(pat)` on a nullable content-type header. -/
def contentTypeIncludes (ct : Option String) (pat : String) : Bool :=
  match ct with
  | some c => jsIncludes c pat
  | none => false

/-- A backend HTTP response as `submitPdf` observes it: `json` is the result
of `response.json()` (`.error` when the body is not parseable JSON), `text`
the result of `response.text()`. -/
structure HttpResponse where
  ok : Bool
  status : Nat
  statusText : String
  contentType : Option String
  json : Except String Json
  text : String

/-- The `useApiState` hook state: `insights` and `isLoading`. -/
structure ApiState where
  insights : Option String
  isLoading : Bool
  deriving Repr, DecidableEq

/-- Observable effects of one `submitPdf` run: the outbound POST (with its
multipart field name and payload), `onError` calls, and `onSuccess` calls. -/
inductive ApiEvent where
  | fetchRequest (fieldName : String) (payload : FileData)
  | errorCb (msg : String)
  | successCb (insights : String)
  deriving Repr, DecidableEq

/-- The catch-block rewriting of `submitPdf`: `err.message` (or the unknown
-error default when empty) is pattern-matched against lower-cased substrings
and replaced by a friendlier message. -/
def mapErrorMessage (raw : String) : String :=
  let m := if raw.isEmpty then "An unknown error occurred during PDF processing." else raw
  let lm := jsToLower m
  if jsIncludes lm "exceeds the model\x27s max input limit" ||
      jsIncludes lm "context length" ||
      jsIncludes lm "token limit" ||
      jsIncludes lm "too long" ||
      jsIncludes lm "maximum length" ||
      jsIncludes lm "invalid_request_error" then
    "This PDF exceeds the context length limit and is too large to process. Please try uploading a smaller PDF document with fewer pages or less text content."
  else if jsIncludes lm "timeout" || jsIncludes lm "timed out" then
    "The PDF processing timed out. This usually happens with very large files. Please try a smaller PDF document."
  else if jsIncludes lm "format" || jsIncludes lm "invalid" || jsIncludes lm "corrupted" then
    "Unable to process this PDF file. The file may be corrupted, password-protected, or in an unsupported format. Please try a different PDF."
  else m

/-- First truthy of `errorData.detail || errorData.message || errorData.error`
(property access on a non-object yields `undefined`, and on `null` it throws
into the ignoring catch — both end up with no replacement here). -/
def firstTruthyErrorField (j : Json) : Option Json :=
  match j.getField "detail" with
  | some v => if v.truthy then some v else firstTruthyErrorFieldRest j
  | none => firstTruthyErrorFieldRest j
where
  firstTruthyErrorFieldRest (j : Json) : Option Json :=
    match j.getField "message" with
    | some v =>
        if v.truthy then some v
        else
          match j.getField "error" with
          | some w => if w.truthy then some w else none
          | none => none
    | none =>
        match j.getField "error" with
        | some w => if w.truthy then some w else none
        | none => none

/-- The message thrown for a non-2xx response: the body JSON's
`detail`/`message`/`error` field when truthy, else the status fallback. -/
def errorMsgOfFailedResponse (r : HttpResponse) : String :=
  let fallback := "API Error: " ++ toString r.status ++ " " ++ r.statusText
  match r.json with
  | .error _ => fallback
  | .ok j =>
      match firstTruthyErrorField j with
      | some v => v.asJsString
      | none => fallback

/-- The success-branch check `jsonData && typeof jsonData.insights === 'string'`
(`'string'` spelt with ASCII quotes in the source): returns the insights
string when present. -/
def hasStringInsights (j : Json) : Option String :=
  if j.truthy then
    match j.getField "insights" with
    | some (.str s) => some s
    | _ => none
  else none

/-- `submitPdf` from useApiState.ts, as a function of the configured backend
base URL, the file, and the result of the (single) fetch: returns the new
hook state and the list of observable events in order. -/
def submitPdf (backendBaseUrl : Option String) (file : FileData)
    (fetchResult : Except String HttpResponse) (s : ApiState) :
    ApiState × List ApiEvent :=
  let s1 : ApiState := { s with isLoading := true }
  match backendBaseUrl with
  | none =>
      ({ s1 with isLoading := false },
        [.errorCb "Backend API URL is not configured. Please set NEXT_PUBLIC_BACKEND_BASE_URL in your .env.local file."])
  | some _ =>
      let req : ApiEvent := .fetchRequest "pdf_file" file
      match fetchResult with
      | .error netMsg =>
          ({ s1 with isLoading := false }, [req, .errorCb (mapErrorMessage netMsg)])
      | .ok r =>
          if !r.ok then
            ({ s1 with isLoading := false },
              [req, .errorCb (mapErrorMessage (errorMsgOfFailedResponse r))])
          else if contentTypeIncludes r.contentType "application/json" then
            match r.json with
            | .error parseMsg =>
                ({ s1 with isLoading := false }, [req, .errorCb (mapErrorMessage parseMsg)])
            | .ok j =>
                match hasStringInsights j with
                | some insightsText =>
                    ({ insights := some insightsText, isLoading := false },
                      [req, .successCb insightsText])
                | none =>
                    ({ s1 with isLoading := false },
                      [req, .errorCb (mapErrorMessage "Invalid JSON response: \x27insights\x27 field missing or not a string.")])
          else
            if !r.text.isEmpty then
              ({ insights := some r.text, isLoading := false },
                [req, .successCb r.text])
            else
              ({ s1 with isLoading := false },
                [req, .errorCb (mapErrorMessage "Empty response from API.")])

/-- Number of `onError` calls in an event list. -/
def countErrorCbs (evts : List ApiEvent) : Nat :=
  (evts.filter (fun e => match e with | .errorCb _ => true | _ => false)).length

/-- Number of `onSuccess` calls in an event list. -/
def countSuccessCbs (evts : List ApiEvent) : Nat :=
  (evts.filter (fun e => match e with | .successCb _ => true | _ => false)).length

/-- Number of outbound fetches in an event list. -/
def countFetchRequests (evts : List ApiEvent) : Nat :=
  (evts.filter (fun e => match e with | .fetchRequest _ _ => true | _ => false)).length

/-- The failing-run precondition of claim C3: backend URL not configured,
network failure, non-2xx status, JSON body without a string insights field,
or empty non-JSON body. -/
def failingRun (backendBaseUrl : Option String)
    (fetchResult : Except String HttpResponse) : Prop :=
  backendBaseUrl = none ∨
  (∃ msg, fetchResult = .error msg) ∨
  (∃ r, fetchResult = .ok r ∧ r.ok = false) ∨
  (∃ r j, fetchResult = .ok r ∧ r.ok = true ∧
    contentTypeIncludes r.contentType "application/json" = true ∧
    r.json = .ok j ∧ hasStringInsights j = none) ∨
  (∃ r, fetchResult = .ok r ∧ r.ok = true ∧
    contentTypeIncludes r.contentType "application/json" = false ∧ r.text = "")

/-! ### InsightsViewer.tsx rendering -/

/-- JavaScript truthiness of a `string | null` prop. -/
def strOptTruthy : Option String → Bool
  | some s => !s.isEmpty
  | none => false

/-- Which InsightsViewer header controls are rendered: the text-size buttons
and the save button render under `\x7binsights && ...\x7d`, the test-content
loader under `\x7bisTestingEnabled && onTestInsights && ...\x7d`. -/
structure ViewerControls where
  textSizeControls : Bool
  saveButton : Bool
  testLoader : Bool
  deriving Repr, DecidableEq

/-- The controls InsightsViewer renders for a given `insights` prop. -/
def insightsViewerControls (insights : Option String)
    (isTestingEnabled hasTestCallback : Bool) : ViewerControls :=
  { textSizeControls := strOptTruthy insights
    saveButton := strOptTruthy insights
    testLoader := isTestingEnabled && hasTestCallback }

/-- The markdown body InsightsViewer renders: the `insights` prop when
truthy, otherwise the empty-state placeholder (modelled as `none`). -/
def renderedMarkdown (insights : Option String) : Option String :=
  if strOptTruthy insights then insights else none

/-- Concrete upload used in the C1 and C3 concrete runs. -/
def samplePdfFile : FileData :=
  { name := "paper.pdf", type := "application/pdf", content := [37, 80, 68, 70] }

/-- Concrete 2xx JSON response whose insights field is the empty string. -/
def c1EmptyInsightsResp : HttpResponse :=
  { ok := true
    status := 200
    statusText := "OK"
    contentType := some "application/json"
    json := .ok (.obj [("insights", .str "")])
    text := "" }

/-- The run of `submitPdf` on `c1EmptyInsightsResp`. -/
def c1EmptyRun : ApiState × List ApiEvent :=
  submitPdf (some "http://backend.example") samplePdfFile
    (.ok c1EmptyInsightsResp) { insights := none, isLoading := false }

/-- Concrete non-2xx response used by the C3 witness. -/
def c3FailResp : HttpResponse :=
  { ok := false
    status := 500
    statusText := "Internal Server Error"
    contentType := some "application/json"
    json := .error "parse failed"
    text := "" }

/-- Concrete 2xx JSON response with a non-empty insights string, used by
the C1 witness. -/
def c1GoodResp : HttpResponse :=
  { ok := true
    status := 200
    statusText := "OK"
    contentType := some "application/json"
    json := .ok (.obj [("insights", .str "# Report")])
    text := "" }

/-- Concrete non-PDF file used by the C2 witness. -/
def c2BadFile : FileData :=
  { name := "notes.txt", type := "text/plain", content := [110, 111] }

end InsightGUIDE

namespace InsightGUIDE

/-! ### Upload form state and drag-and-drop (useDragDrop.ts / useUploadState) -/

/-- `MAX_FILE_SIZE = 15 * 1024 * 1024` (15 MB). -/
def MAX_FILE_SIZE : Nat := 15 * 1024 * 1024

/-- `ACCEPTED_FILE_TYPES = ["application/pdf"]`. -/
def ACCEPTED_FILE_TYPES : List String := ["application/pdf"]

/-- Outcome of `handleDrop` on the form value: nothing (early return or no
files), a rejection (`setValue(null)` plus an `onError` message), or an
acceptance (`onError("")` plus `setValue(droppedFiles)`). -/
inductive DropAction where
  | ignored
  | rejected (errMsg : String)
  | accepted (files : List FileData)
  deriving Repr, DecidableEq

/-- Result of `handleDrop`: whether URL mode was toggled off, plus the form
action. -/
structure DropResult where
  urlModeToggledOff : Bool
  action : DropAction
  deriving Repr, DecidableEq

/-- `handleDrop` from useDragDrop.ts: early return while loading, then the
single-file, MIME-type, and size checks, in source order. -/
def handleDrop (isLoading isUrlLoading isUrlMode : Bool)
    (maxFileSize : Nat) (acceptedFileTypes : List String)
    (dropped : List FileData) : DropResult :=
  if isLoading || isUrlLoading then ⟨false, .ignored⟩
  else
    let toggled := isUrlMode
    match dropped with
    | [] => ⟨toggled, .ignored⟩
    | f :: rest =>
        if rest.length + 1 > 1 then
          ⟨toggled, .rejected "Please drop only one PDF file."⟩
        else if !(acceptedFileTypes.contains f.type) then
          ⟨toggled, .rejected "Invalid file type. Please drop a PDF file."⟩
        else if f.size > maxFileSize then
          ⟨toggled, .rejected ("File exceeds maximum size of " ++
            toString (maxFileSize / (1024 * 1024)) ++ "MB.")⟩
        else
          ⟨toggled, .accepted (f :: rest)⟩

/-- Effect of a `DropAction` on the form's `pdfFile` value. -/
def applyDropAction (a : DropAction) (prev : Option (List FileData)) :
    Option (List FileData) :=
  match a with
  | .ignored => prev
  | .rejected _ => none
  | .accepted fs => some fs

/-- The zod `formSchema` of useUploadState: `null` passes (`.nullable()`),
an empty FileList fails the custom required check, and a non-empty list is
checked by the size and type refinements in order (the first failing
issue's message is reported). -/
def formSchemaValidate (v : Option (List FileData)) : Except String Unit :=
  match v with
  | none => .ok ()
  | some [] => .error "PDF file is required for analysis."
  | some (f :: _) =>
      if MAX_FILE_SIZE < f.size then
        .error ("Max file size is " ++ toString (MAX_FILE_SIZE / (1024 * 1024)) ++ "MB.")
      else if !(ACCEPTED_FILE_TYPES.contains f.type) then
        .error "Only .pdf files are accepted."
      else .ok ()

/-- The submit pipeline of app/page.tsx: react-hook-form's `handleSubmit`
invokes the submit handler only when the zod resolver reports no issues
(library contract), and `handleFormSubmit` then calls
`submitPdf(data.pdfFile[0])` for a non-empty value and only reports an
error otherwise. Returns the file handed to `submitPdf`, `none` when no
network request is issued. -/
def formSubmit (v : Option (List FileData)) : Option FileData :=
  match formSchemaValidate v with
  | .error _ => none
  | .ok _ =>
      match v with
      | some (f :: _) => some f
      | _ => none

/-- The `useUploadState` hook state relevant to modes, the URL input, and
the form value (`pdfFile = none` is the `null` form value). -/
structure UploadState where
  pdfFile : Option (List FileData)
  isUrlMode : Bool
  isPreloadMode : Bool
  pdfUrlInputValue : String
  urlError : Option String
  isDraggingOver : Bool
  isUrlLoading : Bool
  deriving Repr, DecidableEq

/-- `uploadedFile && uploadedFile.length > 0`. -/
def fileLoaded (s : UploadState) : Bool :=
  match s.pdfFile with
  | some fs => !fs.isEmpty
  | none => false

/-- `handleUrlModeToggle`: early return when a file is loaded; otherwise
reset the field, set the mode, clear the URL input and error, and stop the
drag highlight when enabling. -/
def handleUrlModeToggle (checked : Bool) (s : UploadState) : UploadState :=
  if fileLoaded s then s
  else
    { s with
      pdfFile := none
      isUrlMode := checked
      pdfUrlInputValue := ""
      urlError := none
      isDraggingOver := if checked then false else s.isDraggingOver }

/-- `handlePreloadModeToggle`: early return when a file is loaded; otherwise
reset the field and set the mode, additionally disabling URL mode and
clearing its input when enabling. -/
def handlePreloadModeToggle (checked : Bool) (s : UploadState) : UploadState :=
  if fileLoaded s then s
  else if checked then
    { s with
      pdfFile := none
      isPreloadMode := true
      isDraggingOver := false
      isUrlMode := false
      pdfUrlInputValue := ""
      urlError := none }
  else
    { s with pdfFile := none, isPreloadMode := false }

/-- `handleClearSelection`: reset the field, the URL input and error, and
both modes. -/
def handleClearSelection (s : UploadState) : UploadState :=
  { s with
    pdfFile := none
    pdfUrlInputValue := ""
    urlError := none
    isUrlMode := false
    isPreloadMode := false }

/-! ### Loading a PDF by URL (handleLoadFromUrl) -/

/-- A response to the URL fetch: status data, content type, and the body
blob's bytes. -/
structure UrlFetchResponse where
  ok : Bool
  status : Nat
  statusText : String
  contentType : Option String
  blob : List Nat
  deriving Repr, DecidableEq

/-- Result of the URL fetch: a network-level rejection or a response. -/
inductive UrlFetchResult where
  | netError (msg : String)
  | resp (r : UrlFetchResponse)

/-- Observable events of `handleLoadFromUrl`: the outbound fetch and the
`onSuccess(fileName)` callback. -/
inductive UrlEvent where
  | fetchReq (url : String)
  | successCb (fileName : String)
  deriving Repr, DecidableEq

/-- `extractFileNameFromUrl`: `new URL(url).pathname` is external, so the
parsed pathname is passed in (`none` when the URL constructor throws, in
which case a timestamped fallback name is produced). The last path segment
(or `file.pdf`) is sanitized to `[a-zA-Z0-9._-]` and given a `.pdf`
extension, truncating to 50 characters first when one must be appended. -/
def extractFileNameFromUrl (pathname : Option String) (timestampMs : Nat) : String :=
  match pathname with
  | none => "downloaded_" ++ toString timestampMs ++ ".pdf"
  | some path =>
      let parts := jsSplitChar path '/'
      let lastPart :=
        match parts.getLast? with
        | some lp => if lp.isEmpty then "file.pdf" else lp
        | none => "file.pdf"
      let sanitizedLastPart := String.mk (lastPart.data.map (fun c =>
        if c.isAlpha || c.isDigit || c == '.' || c == '_' || c == '-' then c else '_'))
      if jsEndsWith sanitizedLastPart ".pdf" then sanitizedLastPart
      else jsTake sanitizedLastPart 50 ++ ".pdf"

/-- The catch branch of `handleLoadFromUrl`: set the URL error and clear the
form value unless a file is already loaded. -/
def urlLoadFail (s : UploadState) (msg : String) : UploadState :=
  { s with
    urlError := some msg
    pdfFile := if fileLoaded s then s.pdfFile else none
    isUrlLoading := false }

/-- The file `handleLoadFromUrl` constructs from a successful fetch:
`new File([blob], derivedFileName, \x7b type: "application/pdf" \x7d)`. -/
def urlLoadedFile (pathname : Option String) (timestampMs : Nat)
    (blob : List Nat) : FileData :=
  { name := extractFileNameFromUrl pathname timestampMs
    type := "application/pdf"
    content := blob }

/-- `handleLoadFromUrl` from useUploadState: validate the typed URL, fetch
it (result passed in), check status, content type, and size, then store a
one-file FileList in the form and clear the input. `isUrlLoading` is set
for the duration and false again on every exit. -/
def handleLoadFromUrl (pathnameOf : String → Option String) (timestampMs : Nat)
    (fetchResult : UrlFetchResult) (s : UploadState) : UploadState × List UrlEvent :=
  if s.pdfUrlInputValue.isEmpty || !(jsStartsWith (jsTrim s.pdfUrlInputValue) "http") then
    ({ s with urlError := some "Please enter a valid PDF URL (starting with http or https)." }, [])
  else
    let url := s.pdfUrlInputValue
    match fetchResult with
    | .netError msg =>
        (urlLoadFail s (if msg.isEmpty then
            "Could not load PDF from the provided URL. This might be a CORS issue if fetching from a different domain."
          else msg), [.fetchReq url])
    | .resp r =>
        if !r.ok then
          (urlLoadFail s ("Failed to fetch PDF: " ++ toString r.status ++ " " ++
            r.statusText ++ ". Server might not allow direct fetching (CORS issue)."),
            [.fetchReq url])
        else if !(contentTypeIncludes r.contentType "application/pdf") then
          (urlLoadFail s "The linked resource does not appear to be a PDF file (Content-Type mismatch).",
            [.fetchReq url])
        else if r.blob.length > MAX_FILE_SIZE then
          (urlLoadFail s ("The PDF from URL exceeds the maximum file size of " ++
            toString (MAX_FILE_SIZE / (1024 * 1024)) ++ "MB."),
            [.fetchReq url])
        else
          let file := urlLoadedFile (pathnameOf url) timestampMs r.blob
          ({ s with
              pdfFile := some [file]
              pdfUrlInputValue := ""
              urlError := none
              isUrlLoading := false },
            [.fetchReq url, .successCb file.name])

/-- The form value a local file-picker upload of `f` stores (a one-element
FileList). -/
def localFileUploadValue (f : FileData) : Option (List FileData) := some [f]

/-- The `uploadedFile` effect of app/page.tsx: a non-empty form value sets
`fileName` from the file, reads the file as a data URL into `pdfUrl`
(FileReader is external and deterministic in the content, passed in as
`readDataUrl`), and resets page/zoom; an empty value clears the preview.
Only the successful-read branch is modelled. -/
def applyFileSelection (readDataUrl : List Nat → String)
    (v : Option (List FileData)) (p : PdfState) : PdfState :=
  match v with
  | some (f :: _) =>
      { p with
        fileName := some f.name
        pdfUrl := some (readDataUrl f.content)
        currentPage := 1
        numPages := none
        pdfZoom := 1 }
  | _ =>
      { p with
        fileName := none
        pdfUrl := none
        pdfZoom := 1
        pdfDisplayWidth := none }

/-! ### Preloaded example papers (usePreloadState.ts) -/

/-- An entry of `/data/preload/papers.json`. -/
structure PreloadPaper where
  id : String
  title : String
  filename : String
  deriving Repr, DecidableEq

/-- Outcome of a static-file fetch: network rejection, a non-2xx response,
or the body. -/
inductive FetchOutcome (α : Type) where
  | netError (msg : String)
  | notOk
  | ok (body : α)

/-- The static-file environment of `loadPreloadedPaper`: the markdown and
PDF fetch results by path (deterministic per path — the files are static). -/
structure PreloadFetchEnv where
  fetchMd : String → FetchOutcome String
  fetchPdf : String → FetchOutcome (List Nat)

/-- The `usePreloadState` hook state. -/
structure PreloadState where
  selectedPaper : Option String
  isPreloadLoading : Bool
  preloadedPapers : List PreloadPaper
  deriving Repr, DecidableEq

/-- Observable events of one `loadPreloadedPaper` run. -/
inductive PreloadEvent where
  | fetchMdReq (path : String)
  | fetchPdfReq (path : String)
  | errorCb (msg : String)
  | successCb (fileName : String) (insights : String)
  deriving Repr, DecidableEq

/-- `loadPreloadedPaper` from usePreloadState.ts: look the paper up, fetch
its markdown then its PDF, and either report `onSuccess(filename, insights)`
and return the constructed File, or report one error and clear the
selection. -/
def loadPreloadedPaper (env : PreloadFetchEnv) (s : PreloadState) (paperId : String) :
    PreloadState × List PreloadEvent × Option FileData :=
  match s.preloadedPapers.find? (fun p => p.id == paperId) with
  | none => (s, [.errorCb "Selected paper not found in preloaded data."], none)
  | some paper =>
      let s1 := { s with isPreloadLoading := true, selectedPaper := some paperId }
      let mdPath := "/data/preload/MD/" ++ paper.filename ++ ".md"
      match env.fetchMd mdPath with
      | .netError msg =>
          ({ s1 with selectedPaper := none, isPreloadLoading := false },
            [.fetchMdReq mdPath, .errorCb ("Failed to load preloaded paper: " ++ msg)], none)
      | .notOk =>
          ({ s1 with selectedPaper := none, isPreloadLoading := false },
            [.fetchMdReq mdPath,
             .errorCb ("Failed to load preloaded paper: Failed to load insights for " ++ paper.title)],
            none)
      | .ok insights =>
          let pdfPath := "/data/preload/PDF/" ++ paper.filename ++ ".pdf"
          match env.fetchPdf pdfPath with
          | .netError msg =>
              ({ s1 with selectedPaper := none, isPreloadLoading := false },
                [.fetchMdReq mdPath, .fetchPdfReq pdfPath,
                 .errorCb ("Failed to load preloaded paper: " ++ msg)], none)
          | .notOk =>
              ({ s1 with selectedPaper := none, isPreloadLoading := false },
                [.fetchMdReq mdPath, .fetchPdfReq pdfPath,
                 .errorCb ("Failed to load preloaded paper: Failed to load PDF for " ++ paper.title)],
                none)
          | .ok blob =>
              ({ s1 with isPreloadLoading := false },
                [.fetchMdReq mdPath, .fetchPdfReq pdfPath,
                 .successCb (paper.filename ++ ".pdf") insights],
                some { name := paper.filename ++ ".pdf"
                       type := "application/pdf"
                       content := blob })

/-- Is an event an `onError` call? -/
def PreloadEvent.isErrorCb : PreloadEvent → Bool
  | .errorCb _ => true
  | _ => false

/-! ### Basic-auth middleware (middleware.ts) -/

/-- The environment the middleware reads: the protection flag
(`ENABLE_PASSWORD_PROTECTION === 'true'`) and the configured pair. -/
structure MiddlewareEnv where
  enablePasswordProtection : Bool
  username : Option String
  password : Option String

/-- JavaScript truthiness of a `process.env` value (`undefined` and the
empty string are falsy). -/
def envTruthy : Option String → Bool
  | some s => !s.isEmpty
  | none => false

/-- Middleware outcome: pass the request on, or a response with a status
and possibly a `WWW-Authenticate: Basic` header. -/
inductive MwResponse where
  | next
  | response (status : Nat) (wwwAuthenticateBasic : Bool)
  deriving Repr, DecidableEq

/-- The credential comparison of middleware.ts:
`const [username, password] = credentials.split(':')`, each compared with
`!==` against the configured values (base64→ascii decoding by Node's
`Buffer` is external and passed in as `decode`). -/
def decodedCredentialsMatch (decode : String → String) (env : MiddlewareEnv)
    (authHeader : String) : Bool :=
  let credentials := decode (jsDrop authHeader 6)
  let parts := jsSplitChar credentials ':'
  parts.head? == env.username && parts[1]? == env.password

/-- `middleware` from middleware.ts. -/
def middleware (decode : String → String) (env : MiddlewareEnv)
    (authHeader : Option String) : MwResponse :=
  if !env.enablePasswordProtection then .next
  else if !(envTruthy env.password) || !(envTruthy env.username) then .response 500 false
  else
    match authHeader with
    | none => .response 401 true
    | some h =>
        if !(jsStartsWith h "Basic ") then .response 401 true
        else if !(decodedCredentialsMatch decode env h) then .response 401 true
        else .next

/-- Concrete successful URL fetch used by the C4 witness. -/
def c4Resp : UrlFetchResponse :=
  { ok := true
    status := 200
    statusText := "OK"
    contentType := some "application/pdf"
    blob := [37, 80, 68, 70] }

/-- Concrete upload state with a URL typed in, used by the C4 witness. -/
def c4State : UploadState :=
  { pdfFile := none
    isUrlMode := true
    isPreloadMode := false
    pdfUrlInputValue := "http://example.com/papers/x.pdf"
    urlError := none
    isDraggingOver := false
    isUrlLoading := false }

/-- Concrete URL-pathname parser used by the C4 witness (models
`new URL(url).pathname`). -/
def c4PathnameOf : String → Option String := fun _ => some "/papers/x.pdf"

/-- Concrete upload state with a loaded file, used by the C5 witness. -/
def c5State : UploadState :=
  { pdfFile := some [samplePdfFile]
    isUrlMode := false
    isPreloadMode := false
    pdfUrlInputValue := ""
    urlError := none
    isDraggingOver := false
    isUrlLoading := false }

/-- Concrete middleware environment used by the C6 witness. -/
def c6Env : MiddlewareEnv :=
  { enablePasswordProtection := true
    username := some "review"
    password := some "review" }

/-- Concrete base64 decoder used by the C6 witness (models Node's
`Buffer.from(creds, 'base64').toString('ascii')` on the one header the
witness sends). -/
def c6Decode : String → String := fun _ => "review:review"

/-- Concrete static-file environment used by the C7 witness. -/
def c7Env : PreloadFetchEnv :=
  { fetchMd := fun _ => .ok "# Preloaded report"
    fetchPdf := fun _ => .ok [37, 80, 68, 70] }

/-- Concrete preload state used by the C7 witness. -/
def c7State : PreloadState :=
  { selectedPaper := none
    isPreloadLoading := false
    preloadedPapers := [{ id := "p1", title := "Paper One", filename := "paper-one" }] }

end InsightGUIDE

namespace InsightGUIDE

/-! ### Claim C8: zoom clamping -/

/-- Claim C8: the PDF zoom factor is clamped to [0.1, 2.0] in steps of 0.1:
`handleZoomIn z = min (z + 0.1) 2`, `handleZoomOut z = max (z - 0.1) 0.1`,
`handleSetZoom v = max 0.1 (min 2 v)`; requests beyond either bound clamp to
the bound, and from a zoom inside the interval each operation stays inside. -/
theorem c8_zoom_clamped (z v : ℚ)
    (hz : MIN_ZOOM ≤ z ∧ z ≤ MAX_ZOOM) :
    handleZoomIn z = min (z + 1/10) 2 ∧
    handleZoomOut z = max (z - 1/10) (1/10) ∧
    handleSetZoom v = max (1/10) (min 2 v) ∧
    (2 ≤ v → handleSetZoom v = 2) ∧
    (v ≤ 1/10 → handleSetZoom v = 1/10) ∧
    (2 ≤ z + 1/10 → handleZoomIn z = 2) ∧
    (z - 1/10 ≤ 1/10 → handleZoomOut z = 1/10) ∧
    (MIN_ZOOM ≤ handleZoomIn z ∧ handleZoomIn z ≤ MAX_ZOOM) ∧
    (MIN_ZOOM ≤ handleZoomOut z ∧ handleZoomOut z ≤ MAX_ZOOM) ∧
    (MIN_ZOOM ≤ handleSetZoom v ∧ handleSetZoom v ≤ MAX_ZOOM) := by
  obtain ⟨hz1, hz2⟩ := hz
  unfold handleZoomIn handleZoomOut handleSetZoom MIN_ZOOM MAX_ZOOM ZOOM_STEP at *
  refine ⟨rfl, rfl, rfl, ?_, ?_, ?_, ?_, ?_, ?_, ?_⟩
  · intro h
    rw [min_eq_left h, max_eq_right]
    linarith
  · intro h
    rw [max_eq_left]
    exact le_trans (min_le_right _ _) h
  · intro h
    exact min_eq_right h
  · intro h
    exact max_eq_right h
  · constructor
    · exact le_min (by linarith) (by norm_num)
    · exact min_le_right _ _
  · constructor
    · exact le_max_right _ _
    · exact max_le (by linarith) (by norm_num)
  · constructor
    · exact le_max_left _ _
    · exact max_le (by norm_num) (min_le_left _ _)

/-- Witness for C8 at the default zoom 1 and a request of 5 (beyond the
upper bound). -/
theorem c8_zoom_clamped_witness :
    (MIN_ZOOM ≤ (1 : ℚ) ∧ (1 : ℚ) ≤ MAX_ZOOM) ∧
    (handleZoomIn 1 = min (1 + 1/10) 2 ∧ handleSetZoom 5 = 2) := by
  have h : MIN_ZOOM ≤ (1 : ℚ) ∧ (1 : ℚ) ≤ MAX_ZOOM := by
    unfold MIN_ZOOM MAX_ZOOM
    norm_num
  have hmain := c8_zoom_clamped 1 5 h
  exact ⟨h, hmain.1, hmain.2.2.2.1 (by norm_num)⟩

/-! ### Claim C9: page navigation clamping -/

/-- Concrete state at page 1 used to refute the strong reading of C9. -/
def c9State : PdfState :=
  { clearPdfState with pdfUrl := some "blob", numPages := some 3, currentPage := 1 }

/-- Claim C9 counterexample: at `currentPage = 1` of a 3-page document,
`goToPrevPage` is NOT a no-op on the whole state: `saveScrollPosition` first
overwrites `scrollPosition` with the scroll area's current offset (here 5),
so the resulting state differs from the initial one. -/
theorem c9_counterexample :
    c9State.currentPage = 1 ∧
    (goToPrevPage (some 5) c9State).currentPage = 1 ∧
    (goToPrevPage (some 5) c9State).scrollPosition = 5 ∧
    c9State.scrollPosition = 0 ∧
    goToPrevPage (some 5) c9State ≠ c9State := by
  refine ⟨rfl, rfl, rfl, rfl, ?_⟩
  intro h
  have h5 : (goToPrevPage (some 5) c9State).scrollPosition = c9State.scrollPosition :=
    congrArg PdfState.scrollPosition h
  simp [goToPrevPage, saveScrollPosition, c9State, clearPdfState] at h5

/-- Overwriting `currentPage` with its current value leaves the record
unchanged (structure eta). -/
theorem pdfState_update_currentPage (s : PdfState) (c : Int) (h : s.currentPage = c) :
    { s with currentPage := c } = s := by
  subst h
  rfl

/-- The `saveScrollPosition` step touches only `scrollPosition`. -/
theorem saveScrollPosition_frame (scrollTop : Option ℚ) (s : PdfState) :
    (saveScrollPosition scrollTop s).currentPage = s.currentPage ∧
    (saveScrollPosition scrollTop s).pdfUrl = s.pdfUrl ∧
    (saveScrollPosition scrollTop s).numPages = s.numPages ∧
    (saveScrollPosition scrollTop s).fileName = s.fileName ∧
    (saveScrollPosition scrollTop s).pdfDisplayWidth = s.pdfDisplayWidth ∧
    (saveScrollPosition scrollTop s).pdfZoom = s.pdfZoom ∧
    (saveScrollPosition scrollTop s).resetKey = s.resetKey := by
  cases scrollTop <;> exact ⟨rfl, rfl, rfl, rfl, rfl, rfl, rfl⟩

/-- Claim C9 (amended): at the lower boundary (`currentPage = 1`) or the
upper boundary (`currentPage = numPages` with at least one page), navigation
leaves `currentPage` and every field other than `scrollPosition` unchanged:
the result is exactly `saveScrollPosition` applied to the state, which only
overwrites `scrollPosition` with the scroll area's current offset, and is a
full no-op when the scroll area is absent. -/
theorem c9_nav_clamped (scrollTop : Option ℚ) (s : PdfState) (n : Int)
    (hn : s.numPages = some n) (hpos : 1 ≤ n) :
    (s.currentPage = 1 → goToPrevPage scrollTop s = saveScrollPosition scrollTop s) ∧
    (s.currentPage = n → goToNextPage scrollTop s = saveScrollPosition scrollTop s) ∧
    saveScrollPosition none s = s := by
  obtain ⟨hcp, -, hnp, -⟩ := saveScrollPosition_frame scrollTop s
  refine ⟨?_, ?_, rfl⟩
  · intro h1
    simp only [goToPrevPage]
    apply pdfState_update_currentPage
    rw [hcp, h1]
    decide
  · intro hn1
    simp only [goToNextPage]
    apply pdfState_update_currentPage
    rw [hcp, hn1, hnp, hn]
    have hne : numPagesOr1 (some n) = n := by
      simp only [numPagesOr1]
      rw [if_neg (by simpa using (by omega : ¬ n = 0))]
    rw [hne, min_eq_right (by omega)]

/-- Witness for C9 (amended) at page 1 of a 3-page document with scroll
offset 5. -/
theorem c9_nav_clamped_witness :
    c9State.numPages = some 3 ∧ (1 : Int) ≤ 3 ∧ c9State.currentPage = 1 ∧
    goToPrevPage (some 5) c9State = saveScrollPosition (some 5) c9State :=
  ⟨rfl, by norm_num, rfl,
    (c9_nav_clamped (some 5) c9State 3 rfl (by norm_num)).1 rfl⟩

/-! ### Claim C10: onDocumentLoadSuccess page preservation -/

/-- Claim C10: on a successful document load, the current page becomes 1
when no document was previously loaded (`numPages` was `null`), and
otherwise `min currentPage numPages`; the page count is stored. -/
theorem c10_document_load (numPages : Int) (s : PdfState) :
    (onDocumentLoadSuccess numPages s).numPages = some numPages ∧
    (onDocumentLoadSuccess numPages s).currentPage =
      (if s.numPages.isNone then 1 else min s.currentPage numPages) := by
  exact ⟨rfl, rfl⟩

/-! ### Claim C1: successful response handling and rendering -/

/-- Claim C1 counterexample: a 2xx response with JSON content type whose
body is an object whose insights field is the (empty) string stores the
empty string, but the viewer then renders the placeholder instead of the
markdown and the text-size and save controls are NOT rendered, because
InsightsViewer guards them with JavaScript truthiness of `insights`. -/
theorem c1_counterexample :
    c1EmptyInsightsResp.ok = true ∧
    contentTypeIncludes c1EmptyInsightsResp.contentType "application/json" = true ∧
    c1EmptyInsightsResp.json = .ok (Json.obj [("insights", Json.str "")]) ∧
    c1EmptyRun.1.insights = some "" ∧
    c1EmptyRun.2 = [ApiEvent.fetchRequest "pdf_file" samplePdfFile, ApiEvent.successCb ""] ∧
    (insightsViewerControls c1EmptyRun.1.insights true true).textSizeControls = false ∧
    (insightsViewerControls c1EmptyRun.1.insights true true).saveButton = false ∧
    renderedMarkdown c1EmptyRun.1.insights = none :=
  ⟨rfl, by decide, rfl, rfl, rfl, rfl, rfl, rfl⟩

/-- Claim C1 (amended): for every 2xx backend response: if the content type
includes `application/json` and the body is a truthy JSON value whose
insights field is a NON-EMPTY string X, the client stores X, reports it via
`onSuccess`, renders markdown X, and the text-size controls and the
save-as-file button are rendered (and the test-content loader exactly when
testing mode is enabled); if the content type is not JSON and the body text
is non-empty, the raw body text is stored and rendered instead; in either
case the single request carries the file under the multipart field name
`pdf_file`. -/
theorem c1_success_rendering (baseUrl : String) (file : FileData)
    (r : HttpResponse) (s : ApiState) (testing : Bool) (j : Json) (X : String)
    (hok : r.ok = true) :
    (contentTypeIncludes r.contentType "application/json" = true →
      r.json = .ok j → hasStringInsights j = some X → X ≠ "" →
      (submitPdf (some baseUrl) file (.ok r) s).1.insights = some X ∧
      (submitPdf (some baseUrl) file (.ok r) s).2
        = [.fetchRequest "pdf_file" file, .successCb X] ∧
      renderedMarkdown (submitPdf (some baseUrl) file (.ok r) s).1.insights = some X ∧
      insightsViewerControls (submitPdf (some baseUrl) file (.ok r) s).1.insights testing true
        = { textSizeControls := true, saveButton := true, testLoader := testing }) ∧
    (contentTypeIncludes r.contentType "application/json" = false → r.text ≠ "" →
      (submitPdf (some baseUrl) file (.ok r) s).1.insights = some r.text ∧
      (submitPdf (some baseUrl) file (.ok r) s).2
        = [.fetchRequest "pdf_file" file, .successCb r.text] ∧
      renderedMarkdown (submitPdf (some baseUrl) file (.ok r) s).1.insights = some r.text ∧
      insightsViewerControls (submitPdf (some baseUrl) file (.ok r) s).1.insights testing true
        = { textSizeControls := true, saveButton := true, testLoader := testing }) := by
  constructor
  · intro hct hjson hins hne
    have hXe : X.isEmpty = false := by
      cases hXi : X.isEmpty
      · rfl
      · exact absurd ((String.isEmpty_iff _).mp hXi) hne
    simp [submitPdf, hok, hct, hjson, hins, renderedMarkdown, insightsViewerControls,
      strOptTruthy, hXe]
  · intro hct hne
    have hXe : r.text.isEmpty = false := by
      cases hXi : r.text.isEmpty
      · rfl
      · exact absurd ((String.isEmpty_iff _).mp hXi) hne
    simp [submitPdf, hok, hct, renderedMarkdown, insightsViewerControls,
      strOptTruthy, hXe]

/-- Witness for C1 (amended) on a concrete 2xx JSON response carrying the
non-empty insights string. -/
theorem c1_success_rendering_witness :
    c1GoodResp.ok = true ∧
    contentTypeIncludes c1GoodResp.contentType "application/json" = true ∧
    hasStringInsights (Json.obj [("insights", Json.str "# Report")]) = some "# Report" ∧
    (submitPdf (some "http://backend.example") samplePdfFile (.ok c1GoodResp)
        { insights := none, isLoading := false }).1.insights = some "# Report" ∧
    renderedMarkdown (submitPdf (some "http://backend.example") samplePdfFile (.ok c1GoodResp)
        { insights := none, isLoading := false }).1.insights = some "# Report" := by
  have hmain := (c1_success_rendering "http://backend.example" samplePdfFile c1GoodResp
    { insights := none, isLoading := false } true
    (Json.obj [("insights", Json.str "# Report")]) "# Report" rfl).1
    (by decide) rfl (by decide) (by decide)
  exact ⟨rfl, by decide, by decide, hmain.1, hmain.2.2.1⟩

/-! ### Claim C3: failing runs of submitPdf -/

/-- Claim C3: for every failing run of `submitPdf` (backend URL not
configured, network failure, non-2xx status, JSON body without a string
insights field, or empty non-JSON body), exactly one error message is
reported via `onError`, no success is reported, the stored insights value is
unchanged, the loading flag is false at the end, and at most one outbound
request is issued (no retry). -/
theorem c3_failure_behavior (backendBaseUrl : Option String) (file : FileData)
    (fetchResult : Except String HttpResponse) (s : ApiState)
    (h : failingRun backendBaseUrl fetchResult) :
    countErrorCbs (submitPdf backendBaseUrl file fetchResult s).2 = 1 ∧
    countSuccessCbs (submitPdf backendBaseUrl file fetchResult s).2 = 0 ∧
    (submitPdf backendBaseUrl file fetchResult s).1.insights = s.insights ∧
    (submitPdf backendBaseUrl file fetchResult s).1.isLoading = false ∧
    countFetchRequests (submitPdf backendBaseUrl file fetchResult s).2 ≤ 1 := by
  rcases h with h | ⟨msg, h⟩ | ⟨r, h, hok⟩ | ⟨r, j, h, hok, hct, hj, hins⟩ |
    ⟨r, h, hok, hct, htext⟩ <;> subst h
  · simp [submitPdf, countErrorCbs, countSuccessCbs, countFetchRequests]
  all_goals cases backendBaseUrl with
    | none => simp [submitPdf, countErrorCbs, countSuccessCbs, countFetchRequests]
    | some u => ?_
  · simp [submitPdf, countErrorCbs, countSuccessCbs, countFetchRequests]
  · simp [submitPdf, hok, countErrorCbs, countSuccessCbs, countFetchRequests]
  · simp [submitPdf, hok, hct, hj, hins, countErrorCbs, countSuccessCbs, countFetchRequests]
  · have he0 : ("" : String).isEmpty = true := rfl
    simp [submitPdf, hok, hct, htext, he0, countErrorCbs, countSuccessCbs, countFetchRequests]

/-- Witness for C3 on a concrete non-2xx response. -/
theorem c3_failure_behavior_witness :
    failingRun (some "http://backend.example") (.ok c3FailResp) ∧
    countErrorCbs (submitPdf (some "http://backend.example") samplePdfFile
      (.ok c3FailResp) { insights := none, isLoading := false }).2 = 1 ∧
    (submitPdf (some "http://backend.example") samplePdfFile
      (.ok c3FailResp) { insights := none, isLoading := false }).1.isLoading = false := by
  have hf : failingRun (some "http://backend.example") (.ok c3FailResp) :=
    Or.inr (Or.inr (Or.inl ⟨c3FailResp, rfl, rfl⟩))
  have hmain := c3_failure_behavior (some "http://backend.example") samplePdfFile
    (.ok c3FailResp) { insights := none, isLoading := false } hf
  exact ⟨hf, hmain.1, hmain.2.2.2.1⟩

/-! ### Claim C2: local rejection of invalid uploads -/

/-- Claim C2: a file with a MIME type other than `application/pdf` or larger
than the 15 MB ceiling is rejected locally: a drop of it clears the form
value with an error and yields no submission, multiple files in one drop are
likewise rejected, and the form schema marks such a file invalid so the
submit pipeline never invokes `submitPdf` with it. -/
theorem c2_local_rejection (f : FileData) (isUrlMode : Bool)
    (prev : Option (List FileData))
    (hbad : f.type ≠ "application/pdf" ∨ MAX_FILE_SIZE < f.size) :
    (∃ m, (handleDrop false false isUrlMode MAX_FILE_SIZE ACCEPTED_FILE_TYPES [f]).action
        = .rejected m) ∧
    applyDropAction (handleDrop false false isUrlMode MAX_FILE_SIZE
        ACCEPTED_FILE_TYPES [f]).action prev = none ∧
    formSubmit (applyDropAction (handleDrop false false isUrlMode MAX_FILE_SIZE
        ACCEPTED_FILE_TYPES [f]).action prev) = none ∧
    (∃ m, formSchemaValidate (some [f]) = .error m) ∧
    formSubmit (some [f]) = none ∧
    (∀ fs : List FileData, 1 < fs.length →
      (handleDrop false false isUrlMode MAX_FILE_SIZE ACCEPTED_FILE_TYPES fs).action
        = .rejected "Please drop only one PDF file." ∧
      formSubmit (applyDropAction (handleDrop false false isUrlMode MAX_FILE_SIZE
        ACCEPTED_FILE_TYPES fs).action prev) = none) := by
  have hdrop : ∃ m, (handleDrop false false isUrlMode MAX_FILE_SIZE
      ACCEPTED_FILE_TYPES [f]).action = .rejected m := by
    rcases hbad with hty | hsz
    · refine ⟨"Invalid file type. Please drop a PDF file.", ?_⟩
      simp [handleDrop, ACCEPTED_FILE_TYPES, hty]
    · by_cases hty : f.type = "application/pdf"
      · refine ⟨"File exceeds maximum size of " ++
          toString (MAX_FILE_SIZE / (1024 * 1024)) ++ "MB.", ?_⟩
        simp [handleDrop, ACCEPTED_FILE_TYPES, hty, hsz]
      · refine ⟨"Invalid file type. Please drop a PDF file.", ?_⟩
        simp [handleDrop, ACCEPTED_FILE_TYPES, hty]
  obtain ⟨m, hm⟩ := hdrop
  have hval : ∃ m2, formSchemaValidate (some [f]) = .error m2 := by
    rcases hbad with hty | hsz
    · by_cases hsz2 : MAX_FILE_SIZE < f.size
      · exact ⟨"Max file size is " ++ toString (MAX_FILE_SIZE / (1024 * 1024)) ++ "MB.",
          by simp [formSchemaValidate, hsz2]⟩
      · exact ⟨"Only .pdf files are accepted.", by
          simp [formSchemaValidate, hsz2, ACCEPTED_FILE_TYPES, hty]⟩
    · exact ⟨"Max file size is " ++ toString (MAX_FILE_SIZE / (1024 * 1024)) ++ "MB.",
        by simp [formSchemaValidate, hsz]⟩
  obtain ⟨m2, hm2⟩ := hval
  refine ⟨⟨m, hm⟩, ?_, ?_, ⟨m2, hm2⟩, ?_, ?_⟩
  · rw [hm]
    rfl
  · rw [hm]
    rfl
  · simp [formSubmit, hm2]
  · intro fs hfs
    have hrej : (handleDrop false false isUrlMode MAX_FILE_SIZE
        ACCEPTED_FILE_TYPES fs).action = .rejected "Please drop only one PDF file." := by
      match fs, hfs with
      | g :: rest, hfs =>
        have hlen : 0 < rest.length := by simpa using hfs
        have hgt : rest.length + 1 > 1 := by omega
        simp [handleDrop, hgt]
    refine ⟨hrej, ?_⟩
    rw [hrej]
    rfl

/-- Witness for C2 on a concrete text/plain file dropped over the form and
offered through the picker. -/
theorem c2_local_rejection_witness :
    (c2BadFile.type ≠ "application/pdf" ∨ MAX_FILE_SIZE < c2BadFile.size) ∧
    applyDropAction (handleDrop false false false MAX_FILE_SIZE
      ACCEPTED_FILE_TYPES [c2BadFile]).action (some [samplePdfFile]) = none ∧
    formSubmit (some [c2BadFile]) = none := by
  have hb : c2BadFile.type ≠ "application/pdf" ∨ MAX_FILE_SIZE < c2BadFile.size :=
    Or.inl (by decide)
  have hmain := c2_local_rejection c2BadFile false (some [samplePdfFile]) hb
  exact ⟨hb, hmain.2.1, hmain.2.2.2.2.1⟩

/-! ### Claim C4: loading by URL refines a local upload -/

/-- Claim C4: for a URL whose fetch returns `Content-Type: application/pdf`
and a body within the 15 MB ceiling, `handleLoadFromUrl` stores exactly the
one-file FileList a local upload of a file with that content (and the
URL-derived name) stores, so the downstream preview state (`fileName`,
`pdfUrl` data URL, page/zoom reset) and the submitted payload coincide with
those of the local upload. -/
theorem c4_url_load_refines_local (pathnameOf : String → Option String)
    (timestampMs : Nat) (r : UrlFetchResponse) (s : UploadState)
    (readDataUrl : List Nat → String) (p : PdfState)
    (hinput : s.pdfUrlInputValue.isEmpty = false)
    (hhttp : jsStartsWith (jsTrim s.pdfUrlInputValue) "http" = true)
    (hok : r.ok = true)
    (hct : contentTypeIncludes r.contentType "application/pdf" = true)
    (hsize : r.blob.length ≤ MAX_FILE_SIZE) :
    (handleLoadFromUrl pathnameOf timestampMs (.resp r) s).1.pdfFile
      = localFileUploadValue (urlLoadedFile (pathnameOf s.pdfUrlInputValue) timestampMs r.blob) ∧
    applyFileSelection readDataUrl
        (handleLoadFromUrl pathnameOf timestampMs (.resp r) s).1.pdfFile p
      = applyFileSelection readDataUrl
        (localFileUploadValue (urlLoadedFile (pathnameOf s.pdfUrlInputValue) timestampMs r.blob)) p ∧
    formSubmit (handleLoadFromUrl pathnameOf timestampMs (.resp r) s).1.pdfFile
      = formSubmit (localFileUploadValue (urlLoadedFile (pathnameOf s.pdfUrlInputValue) timestampMs r.blob)) ∧
    formSubmit (localFileUploadValue (urlLoadedFile (pathnameOf s.pdfUrlInputValue) timestampMs r.blob))
      = some (urlLoadedFile (pathnameOf s.pdfUrlInputValue) timestampMs r.blob) ∧
    (urlLoadedFile (pathnameOf s.pdfUrlInputValue) timestampMs r.blob).type = "application/pdf" ∧
    (urlLoadedFile (pathnameOf s.pdfUrlInputValue) timestampMs r.blob).content = r.blob := by
  have hguard : (s.pdfUrlInputValue.isEmpty
      || !(jsStartsWith (jsTrim s.pdfUrlInputValue) "http")) = false := by
    rw [hinput, hhttp]
    rfl
  have hsz : ¬ (r.blob.length > MAX_FILE_SIZE) := Nat.not_lt.mpr hsize
  have hfile : (handleLoadFromUrl pathnameOf timestampMs (.resp r) s).1.pdfFile
      = localFileUploadValue (urlLoadedFile (pathnameOf s.pdfUrlInputValue) timestampMs r.blob) := by
    simp [handleLoadFromUrl, hguard, hok, hct, hsz, localFileUploadValue]
  refine ⟨hfile, by rw [hfile], by rw [hfile], ?_, rfl, rfl⟩
  have hszf : ¬ (MAX_FILE_SIZE < r.blob.length) := Nat.not_lt.mpr hsize
  simp [formSubmit, formSchemaValidate, localFileUploadValue, hszf,
    ACCEPTED_FILE_TYPES, urlLoadedFile, FileData.size]

/-- Witness for C4 on a concrete URL fetch of a small PDF body. -/
theorem c4_url_load_refines_local_witness :
    c4State.pdfUrlInputValue.isEmpty = false ∧
    jsStartsWith (jsTrim c4State.pdfUrlInputValue) "http" = true ∧
    c4Resp.ok = true ∧
    contentTypeIncludes c4Resp.contentType "application/pdf" = true ∧
    c4Resp.blob.length ≤ MAX_FILE_SIZE ∧
    (handleLoadFromUrl c4PathnameOf 0 (.resp c4Resp) c4State).1.pdfFile
      = localFileUploadValue (urlLoadedFile (c4PathnameOf c4State.pdfUrlInputValue) 0 c4Resp.blob) ∧
    formSubmit (localFileUploadValue (urlLoadedFile (c4PathnameOf c4State.pdfUrlInputValue) 0 c4Resp.blob))
      = some (urlLoadedFile (c4PathnameOf c4State.pdfUrlInputValue) 0 c4Resp.blob) := by
  have h1 : c4State.pdfUrlInputValue.isEmpty = false := by decide
  have h2 : jsStartsWith (jsTrim c4State.pdfUrlInputValue) "http" = true := by decide
  have h3 : c4Resp.ok = true := rfl
  have h4 : contentTypeIncludes c4Resp.contentType "application/pdf" = true := by decide
  have h5 : c4Resp.blob.length ≤ MAX_FILE_SIZE := by decide
  have hmain := c4_url_load_refines_local c4PathnameOf 0 c4Resp c4State
    (fun _ => "data:application/pdf;base64,JVBE") clearPdfState h1 h2 h3 h4 h5
  exact ⟨h1, h2, h3, h4, h5, hmain.1, hmain.2.2.2.1⟩

/-! ### Claim C5: mode toggling blocked while a file is loaded -/

/-- Claim C5: while the form's pdfFile value is a non-empty FileList, both
`handleUrlModeToggle` and `handlePreloadModeToggle` leave the whole upload
state (in particular `isUrlMode` and `isPreloadMode`) unchanged; after
`handleClearSelection` no file is loaded and toggling sets the requested
mode again. -/
theorem c5_toggle_blocked (s : UploadState) (c : Bool)
    (h : fileLoaded s = true) :
    handleUrlModeToggle c s = s ∧
    handlePreloadModeToggle c s = s ∧
    fileLoaded (handleClearSelection s) = false ∧
    (handleUrlModeToggle c (handleClearSelection s)).isUrlMode = c ∧
    (handlePreloadModeToggle c (handleClearSelection s)).isPreloadMode = c := by
  have hcl : fileLoaded (handleClearSelection s) = false := by
    simp [fileLoaded, handleClearSelection]
  refine ⟨?_, ?_, hcl, ?_, ?_⟩
  · simp [handleUrlModeToggle, h]
  · simp [handlePreloadModeToggle, h]
  · simp [handleUrlModeToggle, hcl]
  · cases c <;> simp [handlePreloadModeToggle, hcl]

/-- Witness for C5 on a concrete state holding one loaded file. -/
theorem c5_toggle_blocked_witness :
    fileLoaded c5State = true ∧
    handleUrlModeToggle true c5State = c5State ∧
    handlePreloadModeToggle true c5State = c5State ∧
    (handleUrlModeToggle true (handleClearSelection c5State)).isUrlMode = true := by
  have hl : fileLoaded c5State = true := rfl
  have hmain := c5_toggle_blocked c5State true hl
  exact ⟨hl, hmain.1, hmain.2.1, hmain.2.2.2.1⟩

/-! ### Claim C6: basic-auth middleware -/

/-- Claim C6: when protection is enabled with a configured (non-empty)
username/password pair, a request without an Authorization header, with a
header not of the `Basic ` shape, or whose decoded credentials do not match
the configured pair receives a 401 with a `WWW-Authenticate: Basic` header;
a request passes through exactly when protection is disabled or the decoded
username and password both match the configured values. -/
theorem c6_basic_auth (decode : String → String) (env : MiddlewareEnv)
    (he : env.enablePasswordProtection = true)
    (hu : envTruthy env.username = true)
    (hp : envTruthy env.password = true) :
    middleware decode env none = .response 401 true ∧
    (∀ h, jsStartsWith h "Basic " = false →
      middleware decode env (some h) = .response 401 true) ∧
    (∀ h, jsStartsWith h "Basic " = true →
      decodedCredentialsMatch decode env h = false →
      middleware decode env (some h) = .response 401 true) ∧
    (∀ ah, middleware decode env ah = .next ↔
      ∃ hdr, ah = some hdr ∧ jsStartsWith hdr "Basic " = true ∧
        decodedCredentialsMatch decode env hdr = true) ∧
    (∀ env2 : MiddlewareEnv, env2.enablePasswordProtection = false →
      ∀ ah, middleware decode env2 ah = .next) := by
  have hflag : (!env.enablePasswordProtection) = false := by
    rw [he]
    rfl
  have hcred : (!(envTruthy env.password) || !(envTruthy env.username)) = false := by
    rw [hu, hp]
    rfl
  refine ⟨?_, ?_, ?_, ?_, ?_⟩
  · simp [middleware, hflag, hcred]
  · intro h hsw
    simp [middleware, hflag, hcred, hsw]
  · intro h hsw hm
    simp [middleware, hflag, hcred, hsw, hm]
  · intro ah
    constructor
    · intro hnext
      cases ah with
      | none => simp [middleware, hflag, hcred] at hnext
      | some h =>
          cases hsw : jsStartsWith h "Basic " with
          | false => simp [middleware, hflag, hcred, hsw] at hnext
          | true =>
              cases hm : decodedCredentialsMatch decode env h with
              | false => simp [middleware, hflag, hcred, hsw, hm] at hnext
              | true => exact ⟨h, rfl, hsw, hm⟩
    · rintro ⟨hdr, rfl, hsw, hm⟩
      simp [middleware, hflag, hcred, hsw, hm]
  · intro env2 hdis ah
    simp [middleware, hdis]

/-- Witness for C6: the configured pair review/review, a missing header,
and a matching `Basic ` header. -/
theorem c6_basic_auth_witness :
    c6Env.enablePasswordProtection = true ∧
    envTruthy c6Env.username = true ∧
    envTruthy c6Env.password = true ∧
    middleware c6Decode c6Env none = .response 401 true ∧
    middleware c6Decode c6Env (some "Basic cmV2aWV3OnJldmlldw==") = .next := by
  have hmain := c6_basic_auth c6Decode c6Env rfl (by decide) (by decide)
  refine ⟨rfl, by decide, by decide, hmain.1, ?_⟩
  exact (hmain.2.2.2.1 (some "Basic cmV2aWV3OnJldmlldw==")).mpr
    ⟨"Basic cmV2aWV3OnJldmlldw==", rfl, by decide, by decide⟩

/-! ### Claim C7: idempotent preloaded-paper loading -/

/-- Claim C7: loading the same preloaded paper twice against the same
static files yields the identical File and identical events (in particular
the same `onSuccess(filename, insights)` pair driving the displayed report
and PDF), the second run leaves the state fixed, and the second run
reports no fetch failure. -/
theorem c7_preload_idempotent (env : PreloadFetchEnv) (s : PreloadState)
    (paperId : String) (paper : PreloadPaper) (insights : String) (blob : List Nat)
    (hfind : s.preloadedPapers.find? (fun p => p.id == paperId) = some paper)
    (hmd : env.fetchMd ("/data/preload/MD/" ++ paper.filename ++ ".md") = .ok insights)
    (hpdf : env.fetchPdf ("/data/preload/PDF/" ++ paper.filename ++ ".pdf") = .ok blob) :
    (loadPreloadedPaper env s paperId).2.2
      = some { name := paper.filename ++ ".pdf", type := "application/pdf", content := blob } ∧
    (loadPreloadedPaper env (loadPreloadedPaper env s paperId).1 paperId).2.2
      = (loadPreloadedPaper env s paperId).2.2 ∧
    (loadPreloadedPaper env (loadPreloadedPaper env s paperId).1 paperId).1
      = (loadPreloadedPaper env s paperId).1 ∧
    (loadPreloadedPaper env (loadPreloadedPaper env s paperId).1 paperId).2.1
      = (loadPreloadedPaper env s paperId).2.1 ∧
    ((loadPreloadedPaper env (loadPreloadedPaper env s paperId).1 paperId).2.1.filter
      PreloadEvent.isErrorCb) = [] := by
  have hrun : loadPreloadedPaper env s paperId
      = ({ s with selectedPaper := some paperId, isPreloadLoading := false },
         [PreloadEvent.fetchMdReq ("/data/preload/MD/" ++ paper.filename ++ ".md"),
          PreloadEvent.fetchPdfReq ("/data/preload/PDF/" ++ paper.filename ++ ".pdf"),
          PreloadEvent.successCb (paper.filename ++ ".pdf") insights],
         some { name := paper.filename ++ ".pdf", type := "application/pdf", content := blob }) := by
    simp [loadPreloadedPaper, hfind, hmd, hpdf]
  have hfind2 : ({ s with selectedPaper := some paperId, isPreloadLoading := false }
      : PreloadState).preloadedPapers.find? (fun p => p.id == paperId) = some paper := hfind
  have hrun2 : loadPreloadedPaper env
      ({ s with selectedPaper := some paperId, isPreloadLoading := false }) paperId
      = ({ s with selectedPaper := some paperId, isPreloadLoading := false },
         [PreloadEvent.fetchMdReq ("/data/preload/MD/" ++ paper.filename ++ ".md"),
          PreloadEvent.fetchPdfReq ("/data/preload/PDF/" ++ paper.filename ++ ".pdf"),
          PreloadEvent.successCb (paper.filename ++ ".pdf") insights],
         some { name := paper.filename ++ ".pdf", type := "application/pdf", content := blob }) := by
    simp [loadPreloadedPaper, hfind2, hmd, hpdf]
  simp [hrun, hrun2, PreloadEvent.isErrorCb]

/-- Witness for C7 on a concrete paper list and static-file environment. -/
theorem c7_preload_idempotent_witness :
    c7State.preloadedPapers.find? (fun p => p.id == "p1")
      = some { id := "p1", title := "Paper One", filename := "paper-one" } ∧
    (loadPreloadedPaper c7Env c7State "p1").2.2
      = some { name := "paper-one.pdf", type := "application/pdf", content := [37, 80, 68, 70] } ∧
    ((loadPreloadedPaper c7Env (loadPreloadedPaper c7Env c7State "p1").1 "p1").2.1.filter
      PreloadEvent.isErrorCb) = [] := by
  have hmain := c7_preload_idempotent c7Env c7State "p1"
    { id := "p1", title := "Paper One", filename := "paper-one" }
    "# Preloaded report" [37, 80, 68, 70] (by decide) rfl rfl
  exact ⟨by decide, hmain.1, hmain.2.2.2.2⟩

end InsightGUIDE
